import Mathlib

/-!
Verification of the mermaid git-graph statement normalizer
(`packages/mermaid/src/diagrams/git/gitGraphParser.ts`).

The normalizer walks an already-parsed git-graph AST and, for each
top-level statement, invokes one method of a sink object (the graph
database) with positional arguments.  We embed the AST types, the five
field-extraction adapters (`parseCommit`, `parseBranch`, `parseMerge`,
`parseCheckout`, `parseCherryPicking`), the dispatcher `parseStatement`
and the driver `populate` as pure Lean functions.  Side effects (sink
method invocations and error-log lines) are made explicit as an ordered
event trace returned by the functions.

Optional AST fields (`?:` fields in TypeScript, read with `??` /
optional chaining in the source) are embedded as `Option`.  A value
passed onward as JavaScript `undefined` is embedded as `none`.
-/

namespace GitGraphParser

/-- Layout direction of a git graph.  Modelled from the spec: the
`GitGraph` AST type of the external `@mermaid-js/parser` package is not
part of the sources; the spec describes the direction as an optional
scalar on the graph root with a closed set of values.  Every direction
value is a non-empty string, so the source's truthiness test
`if (ast.dir)` coincides with presence of the field. -/
inductive Direction where
  | LR
  | TB
  | BT
  deriving DecidableEq, Repr

/-- Embedding of the `CommitAst` record: required `id`, optional
`message`, optional `type` tag (a string key into the type-tag table),
optional `tags`. -/
structure CommitAst where
  id : String
  message : Option String
  type : Option String
  tags : Option (List String)
  deriving DecidableEq, Repr

/-- Embedding of the `BranchAst` record: required `name`, optional
`order`. -/
structure BranchAst where
  name : String
  order : Option Int
  deriving DecidableEq, Repr

/-- Embedding of the `MergeAst` record: required `branch`, optional
`id`, optional `type` tag, optional `tags`. -/
structure MergeAst where
  branch : String
  id : Option String
  type : Option String
  tags : Option (List String)
  deriving DecidableEq, Repr

/-- Embedding of the `CheckoutAst` record: required `branch`. -/
structure CheckoutAst where
  branch : String
  deriving DecidableEq, Repr

/-- Embedding of the `CherryPickingAst` record: required `id`, optional
`tags`, required `parent`. -/
structure CherryPickingAst where
  id : String
  tags : Option (List String)
  parent : String
  deriving DecidableEq, Repr

/-- A top-level statement of the AST.  The source dispatches on the
string discriminant `statement.$type`; the five recognized discriminants
become the five typed constructors, and any statement whose discriminant
is not one of the five keys of the dispatch table is embedded by the
`Unknown` constructor carrying its discriminant string. -/
inductive Statement where
  | Commit (stmt : CommitAst)
  | Branch (stmt : BranchAst)
  | Merge (stmt : MergeAst)
  | Checkout (stmt : CheckoutAst)
  | CherryPicking (stmt : CherryPickingAst)
  | Unknown (tag : String)
  deriving DecidableEq, Repr

/-- Embedding of the `GitGraph` AST root: an optional layout direction
`dir` and the ordered statement sequence. -/
structure GitGraph where
  dir : Option Direction
  statements : List Statement
  deriving DecidableEq, Repr

/-- Modelled from the spec: the `commitType` lookup table lives in
`gitGraphTypes.ts`, which is not among the sources.  The spec describes
it as a fixed closed enumeration NORMAL / REVERSE / HIGHLIGHT mapped to
internal numeric codes, with NORMAL = 0 (the end-to-end example maps the
tag "NORMAL" to the code 0).  A JavaScript record lookup at a missing
key yields `undefined`, embedded as `none`. -/
def commitType : String → Option Nat
  | "NORMAL" => some 0
  | "REVERSE" => some 1
  | "HIGHLIGHT" => some 2
  | _ => none

/-- One sink method invocation with its positional arguments.  `Option`
arguments embed parameters that the source may pass as `undefined`. -/
inductive SinkCall where
  | setDirection (dir : Direction)
  | commit (message : String) (id : String) (type : Option Nat)
      (tags : Option (List String))
  | branch (name : String) (order : Int)
  | merge (branch : String) (id : String) (type : Option Nat)
      (tags : Option (List String))
  | checkout (branch : String)
  | cherryPick (id : String) (placeholder : String)
      (tags : Option (List String)) (parent : String)
  deriving DecidableEq, Repr

/-- One observable event of a normalization run: a sink method
invocation, an error-log line (`log.error`), or the black-box
common-initialization call `populateCommonDb` (which touches only the
shared title/accessibility setup, none of the six sink methods). -/
inductive Event where
  | call (c : SinkCall)
  | logError (msg : String)
  | populateCommon
  deriving DecidableEq, Repr

/-- `parseCommit`: message defaults to the empty string, the type tag is
looked up in `commitType` when present and defaults to
`commitType.NORMAL` when absent, tags pass through unchanged
(`commit.tags ?? undefined`). -/
def parseCommit (commit : CommitAst) :
    String × String × Option Nat × Option (List String) :=
  let id := commit.id
  let message := commit.message.getD ""
  let type := match commit.type with
    | some t => commitType t
    | none => commitType "NORMAL"
  let tags := commit.tags
  (message, id, type, tags)

/-- `parseBranch`: order defaults to 0. -/
def parseBranch (branch : BranchAst) : String × Int :=
  let name := branch.name
  let order := branch.order.getD 0
  (name, order)

/-- `parseMerge`: id defaults to the empty string, the type tag is
looked up in `commitType` when present and stays `undefined` when
absent, tags pass through unchanged. -/
def parseMerge (merge : MergeAst) :
    String × String × Option Nat × Option (List String) :=
  let branch := merge.branch
  let id := merge.id.getD ""
  let type := match merge.type with
    | some t => commitType t
    | none => none
  let tags := merge.tags
  (branch, id, type, tags)

/-- `parseCheckout`: returns the branch name. -/
def parseCheckout (checkout : CheckoutAst) : String :=
  checkout.branch

/-- `parseCherryPicking`: a present-but-empty tags sequence collapses to
`undefined` (`tags?.length === 0 ? undefined : tags`; when `tags` is
`undefined` the optional-chained comparison is false and `tags` itself,
i.e. `undefined`, is kept); the second component is always the empty
string. -/
def parseCherryPicking (cherryPicking : CherryPickingAst) :
    String × String × Option (List String) × String :=
  let id := cherryPicking.id
  let tags := match cherryPicking.tags with
    | some l => if l.length = 0 then none else some l
    | none => none
  let parent := cherryPicking.parent
  (id, "", tags, parent)

/-- `parseStatement`: dispatch on the statement discriminant.  Each of
the five recognized discriminants invokes exactly one sink method with
the adapter's positional tuple; an unrecognized discriminant produces an
error-log line and no sink call. -/
def parseStatement : Statement → List Event
  | Statement.Commit stmt =>
      match parseCommit stmt with
      | (message, id, type, tags) =>
          [Event.call (SinkCall.commit message id type tags)]
  | Statement.Branch stmt =>
      match parseBranch stmt with
      | (name, order) => [Event.call (SinkCall.branch name order)]
  | Statement.Merge stmt =>
      match parseMerge stmt with
      | (branch, id, type, tags) =>
          [Event.call (SinkCall.merge branch id type tags)]
  | Statement.Checkout stmt =>
      [Event.call (SinkCall.checkout (parseCheckout stmt))]
  | Statement.CherryPicking stmt =>
      match parseCherryPicking stmt with
      | (id, placeholder, tags, parent) =>
          [Event.call (SinkCall.cherryPick id placeholder tags parent)]
  | Statement.Unknown tag =>
      [Event.logError ("Unknown statement type: " ++ tag)]

/-- `populate`: first the common-initialization collaborator, then the
direction (only if present), then every statement in input order. -/
def populate (ast : GitGraph) : List Event :=
  Event.populateCommon ::
    ((match ast.dir with
      | some d => [Event.call (SinkCall.setDirection d)]
      | none => []) ++
     (ast.statements.map parseStatement).flatten)

/-- The sink method invocations of an event trace, in order. -/
def sinkCalls (events : List Event) : List SinkCall :=
  events.filterMap fun e =>
    match e with
    | Event.call c => some c
    | _ => none

/-- Whether a statement's discriminant is one of the five recognized
dispatch-table keys. -/
def isRecognized : Statement → Bool
  | Statement.Unknown _ => false
  | _ => true

/-- The single sink call a recognized statement gives rise to (`none`
for an unrecognized discriminant). -/
def statementCall : Statement → Option SinkCall
  | Statement.Commit stmt =>
      match parseCommit stmt with
      | (message, id, type, tags) => some (SinkCall.commit message id type tags)
  | Statement.Branch stmt =>
      match parseBranch stmt with
      | (name, order) => some (SinkCall.branch name order)
  | Statement.Merge stmt =>
      match parseMerge stmt with
      | (branch, id, type, tags) => some (SinkCall.merge branch id type tags)
  | Statement.Checkout stmt => some (SinkCall.checkout (parseCheckout stmt))
  | Statement.CherryPicking stmt =>
      match parseCherryPicking stmt with
      | (id, placeholder, tags, parent) =>
          some (SinkCall.cherryPick id placeholder tags parent)
  | Statement.Unknown _ => none

/-- Whether a sink call is a `setDirection` invocation. -/
def isSetDirectionCall : SinkCall → Bool
  | SinkCall.setDirection _ => true
  | _ => false

/-! ## Helper lemmas -/

theorem sinkCalls_append (a b : List Event) :
    sinkCalls (a ++ b) = sinkCalls a ++ sinkCalls b := by
  simp [sinkCalls, List.filterMap_append]

theorem sinkCalls_parseStatement_eq (s : Statement) :
    sinkCalls (parseStatement s) = (statementCall s).toList := by
  cases s <;> rfl

theorem sinkCalls_flatten_map (l : List Statement) :
    sinkCalls ((l.map parseStatement).flatten) = l.filterMap statementCall := by
  induction l with
  | nil => rfl
  | cons s l ih =>
    rw [List.map_cons, List.flatten_cons, sinkCalls_append,
      sinkCalls_parseStatement_eq, List.filterMap_cons]
    cases h : statementCall s <;> simp [ih]

theorem sinkCalls_populate (ast : GitGraph) :
    sinkCalls (populate ast) =
      (match ast.dir with
       | some d => [SinkCall.setDirection d]
       | none => []) ++ ast.statements.filterMap statementCall := by
  cases ast with
  | mk dir statements =>
    show sinkCalls (Event.populateCommon :: _) = _
    cases dir with
    | none =>
      show sinkCalls ([] ++ (statements.map parseStatement).flatten) = _
      rw [List.nil_append, sinkCalls_flatten_map, List.nil_append]
    | some d =>
      show sinkCalls (Event.call (SinkCall.setDirection d) ::
        (statements.map parseStatement).flatten) = _
      show SinkCall.setDirection d :: sinkCalls _ = _
      rw [sinkCalls_flatten_map]
      rfl

theorem statementCall_not_setDirection (s : Statement) (c : SinkCall)
    (h : statementCall s = some c) : isSetDirectionCall c = false := by
  cases s with
  | Commit stmt => injection h with h; subst h; rfl
  | Branch stmt => injection h with h; subst h; rfl
  | Merge stmt => injection h with h; subst h; rfl
  | Checkout stmt => injection h with h; subst h; rfl
  | CherryPicking stmt => injection h with h; subst h; rfl
  | Unknown tag => exact Option.noConfusion h

theorem filter_setDirection_statementCalls (l : List Statement) :
    (l.filterMap statementCall).filter isSetDirectionCall = [] := by
  induction l with
  | nil => rfl
  | cons s l ih =>
    rw [List.filterMap_cons]
    cases h : statementCall s with
    | none => exact ih
    | some c =>
      rw [List.filter_cons, statementCall_not_setDirection s c h]
      simpa using ih

/-! ## Claim theorems -/

/-- Claim C1: for the five-statement input sequence
[Commit{id:"1",message:"test",tags:["tag1","tag2"],type:"NORMAL"},
Branch{name:"newBranch",order:1},
Merge{branch:"newBranch",id:"1",tags:["tag1","tag2"],type:"NORMAL"},
Checkout{branch:"newBranch"},
CherryPicking{id:"1",tags:["tag1","tag2"],parent:"2"}], normalize emits
exactly the sink calls commit("test","1",0,["tag1","tag2"]),
branch("newBranch",1), merge("newBranch","1",0,["tag1","tag2"]),
checkout("newBranch"), cherryPick("1","",["tag1","tag2"],"2"), in that
order. -/
theorem endToEnd_example_trace :
    sinkCalls (populate
      { dir := none
        statements :=
          [Statement.Commit
             { id := "1", message := some "test", type := some "NORMAL",
               tags := some ["tag1", "tag2"] },
           Statement.Branch { name := "newBranch", order := some 1 },
           Statement.Merge
             { branch := "newBranch", id := some "1", type := some "NORMAL",
               tags := some ["tag1", "tag2"] },
           Statement.Checkout { branch := "newBranch" },
           Statement.CherryPicking
             { id := "1", tags := some ["tag1", "tag2"], parent := "2" }] }) =
      [SinkCall.commit "test" "1" (some 0) (some ["tag1", "tag2"]),
       SinkCall.branch "newBranch" 1,
       SinkCall.merge "newBranch" "1" (some 0) (some ["tag1", "tag2"]),
       SinkCall.checkout "newBranch",
       SinkCall.cherryPick "1" "" (some ["tag1", "tag2"]) "2"] := by
  rfl

/-- Claim C2: for every graph, normalize makes exactly one sink method
invocation per statement whose discriminant is one of the five
recognized variants, and the invocations occur in the statements' input
order (the whole sink trace is the optional direction call followed by
the per-statement calls, one each, in order — no batching, reordering or
deduplication). -/
theorem one_sink_call_per_recognized_statement (ast : GitGraph) :
    sinkCalls (populate ast) =
      (match ast.dir with
       | some d => [SinkCall.setDirection d]
       | none => []) ++ ast.statements.filterMap statementCall ∧
    ∀ s : Statement, isRecognized s = true →
      (sinkCalls (parseStatement s)).length = 1 := by
  refine ⟨sinkCalls_populate ast, ?_⟩
  intro s hs
  cases s <;> first | rfl | exact Bool.noConfusion hs

/-- Witness for C2 at a concrete recognized statement. -/
theorem one_sink_call_per_recognized_statement_witness :
    (sinkCalls (parseStatement (Statement.Checkout { branch := "main" }))).length
      = 1 :=
  (one_sink_call_per_recognized_statement
    { dir := none, statements := [] }).2
    (Statement.Checkout { branch := "main" }) rfl

/-- Claim C3: a statement with an unrecognized discriminant among
otherwise-valid statements produces a log line identifying the unknown
tag and no sink call, while every other statement still produces its
sink calls; the normalizer is a total function, so no exception
escapes. -/
theorem unknown_discriminant_logged_skipped_continues
    (dir : Option Direction) (pre post : List Statement) (tag : String) :
    sinkCalls (populate
        { dir := dir, statements := pre ++ Statement.Unknown tag :: post }) =
      sinkCalls (populate { dir := dir, statements := pre ++ post }) ∧
    Event.logError ("Unknown statement type: " ++ tag) ∈
      populate { dir := dir, statements := pre ++ Statement.Unknown tag :: post } ∧
    sinkCalls (parseStatement (Statement.Unknown tag)) = [] := by
  refine ⟨?_, ?_, rfl⟩
  · rw [sinkCalls_populate, sinkCalls_populate]
    simp [List.filterMap_append, List.filterMap_cons, statementCall]
  · have hmem : Statement.Unknown tag ∈ pre ++ Statement.Unknown tag :: post := by
      simp
    simp only [populate, List.mem_cons, List.mem_append, List.mem_flatten]
    refine Or.inr (Or.inr ⟨parseStatement (Statement.Unknown tag),
      List.mem_map_of_mem _ hmem, ?_⟩)
    simp [parseStatement]

/-- Claim C4: when the graph's direction field is absent, normalize
makes zero `setDirection` calls; when it is present, normalize makes
exactly one `setDirection` call, with that value. -/
theorem setDirection_calls_match_direction_presence (ast : GitGraph) :
    (sinkCalls (populate ast)).filter isSetDirectionCall =
      match ast.dir with
      | some d => [SinkCall.setDirection d]
      | none => [] := by
  rw [sinkCalls_populate, List.filter_append, filter_setDirection_statementCalls,
    List.append_nil]
  cases ast.dir <;> rfl

/-- Claim C5: a Commit statement with no type field gets the NORMAL code
as its type argument, while a Merge statement with no type field gets an
absent (undefined) type argument — the two defaults differ. -/
theorem commit_merge_type_defaults_differ (c : CommitAst) (m : MergeAst)
    (hc : c.type = none) (hm : m.type = none) :
    (parseCommit c).2.2.1 = commitType "NORMAL" ∧
    (parseMerge m).2.2.1 = none ∧
    commitType "NORMAL" ≠ none := by
  refine ⟨?_, ?_, by simp [commitType]⟩
  · simp [parseCommit, hc]
  · simp [parseMerge, hm]

/-- Witness for C5 at concrete type-less Commit and Merge statements. -/
theorem commit_merge_type_defaults_differ_witness :
    ({ id := "1", message := none, type := none, tags := none } :
        CommitAst).type = none ∧
    ({ branch := "b", id := none, type := none, tags := none } :
        MergeAst).type = none ∧
    ((parseCommit { id := "1", message := none, type := none, tags := none }).2.2.1
        = commitType "NORMAL" ∧
     (parseMerge { branch := "b", id := none, type := none, tags := none }).2.2.1
        = none ∧
     commitType "NORMAL" ≠ none) :=
  ⟨rfl, rfl,
    commit_merge_type_defaults_differ
      { id := "1", message := none, type := none, tags := none }
      { branch := "b", id := none, type := none, tags := none } rfl rfl⟩

/-- Claim C6: a CherryPick statement whose labels field is present but
empty gets an absent (undefined) labels argument, not an empty sequence;
and the second positional argument of `cherryPick` is always the empty
string. -/
theorem cherryPick_empty_tags_absent_and_placeholder_empty
    (cp : CherryPickingAst) (h : cp.tags = some []) :
    (parseCherryPicking cp).2.2.1 = none ∧
    ∀ cp2 : CherryPickingAst, (parseCherryPicking cp2).2.1 = "" := by
  refine ⟨?_, fun cp2 => rfl⟩
  simp [parseCherryPicking, h]

/-- Witness for C6 at a concrete CherryPick statement with empty labels. -/
theorem cherryPick_empty_tags_absent_and_placeholder_empty_witness :
    ({ id := "1", tags := some [], parent := "2" } :
        CherryPickingAst).tags = some [] ∧
    ((parseCherryPicking { id := "1", tags := some [], parent := "2" }).2.2.1
        = none ∧
     ∀ cp2 : CherryPickingAst, (parseCherryPicking cp2).2.1 = "") :=
  ⟨rfl,
    cherryPick_empty_tags_absent_and_placeholder_empty
      { id := "1", tags := some [], parent := "2" } rfl⟩

/-- Claim C7: a Branch statement with no order field gets order 0 with
the name passed through unchanged; a Merge statement with no id field
gets the empty string as its id argument. -/
theorem branch_order_default_and_merge_id_default (b : BranchAst)
    (m : MergeAst) (hb : b.order = none) (hm : m.id = none) :
    parseBranch b = (b.name, 0) ∧ (parseMerge m).2.1 = "" := by
  constructor
  · simp [parseBranch, hb]
  · simp [parseMerge, hm]

/-- Witness for C7 at concrete order-less Branch and id-less Merge
statements. -/
theorem branch_order_default_and_merge_id_default_witness :
    ({ name := "dev", order := none } : BranchAst).order = none ∧
    ({ branch := "b", id := none, type := none, tags := none } :
        MergeAst).id = none ∧
    (parseBranch { name := "dev", order := none } = ("dev", 0) ∧
     (parseMerge { branch := "b", id := none, type := none, tags := none }).2.1
        = "") :=
  ⟨rfl, rfl,
    branch_order_default_and_merge_id_default
      { name := "dev", order := none }
      { branch := "b", id := none, type := none, tags := none } rfl rfl⟩

/-- Claim C8: a Commit or Merge statement whose labels field is present
but empty passes the empty sequence onward unchanged — the
empty-sequence-to-absent collapse applies only to CherryPick. -/
theorem commit_merge_empty_tags_passed_through (c : CommitAst)
    (m : MergeAst) (hc : c.tags = some []) (hm : m.tags = some []) :
    (parseCommit c).2.2.2 = some [] ∧ (parseMerge m).2.2.2 = some [] := by
  constructor
  · simp [parseCommit, hc]
  · simp [parseMerge, hm]

/-- Witness for C8 at concrete empty-labelled Commit and Merge
statements. -/
theorem commit_merge_empty_tags_passed_through_witness :
    ({ id := "1", message := none, type := none, tags := some [] } :
        CommitAst).tags = some [] ∧
    ({ branch := "b", id := none, type := none, tags := some [] } :
        MergeAst).tags = some [] ∧
    ((parseCommit
        { id := "1", message := none, type := none, tags := some [] }).2.2.2
        = some [] ∧
     (parseMerge
        { branch := "b", id := none, type := none, tags := some [] }).2.2.2
        = some []) :=
  ⟨rfl, rfl,
    commit_merge_empty_tags_passed_through
      { id := "1", message := none, type := none, tags := some [] }
      { branch := "b", id := none, type := none, tags := some [] } rfl rfl⟩

/-- Claim C9: a Commit statement whose type field is present but not a
key of the `commitType` table gets the absent (undefined) lookup result
as its type argument, not the NORMAL code. -/
theorem commit_unknown_type_tag_gives_absent (c : CommitAst) (t : String)
    (h : c.type = some t) (hu : commitType t = none) :
    (parseCommit c).2.2.1 = none ∧
    (parseCommit c).2.2.1 ≠ commitType "NORMAL" := by
  have htype : (parseCommit c).2.2.1 = none := by
    simp [parseCommit, h, hu]
  exact ⟨htype, by simp [htype, commitType]⟩

/-- Witness for C9 at a concrete Commit statement with the unrecognized
type tag "UNKNOWN". -/
theorem commit_unknown_type_tag_gives_absent_witness :
    ({ id := "1", message := none, type := some "UNKNOWN", tags := none } :
        CommitAst).type = some "UNKNOWN" ∧
    commitType "UNKNOWN" = none ∧
    ((parseCommit
        { id := "1", message := none, type := some "UNKNOWN",
          tags := none }).2.2.1 = none ∧
     (parseCommit
        { id := "1", message := none, type := some "UNKNOWN",
          tags := none }).2.2.1 ≠ commitType "NORMAL") :=
  ⟨rfl, rfl,
    commit_unknown_type_tag_gives_absent
      { id := "1", message := none, type := some "UNKNOWN", tags := none }
      "UNKNOWN" rfl rfl⟩

/-- Claim C10: normalize is deterministic — the event trace (and hence
the sequence of sink method invocations) is a function of the input
graph's direction and statement sequence alone, so two runs on equal
graphs produce identical traces. -/
theorem populate_deterministic (g1 g2 : GitGraph) (hd : g1.dir = g2.dir)
    (hs : g1.statements = g2.statements) : populate g1 = populate g2 := by
  cases g1 with
  | mk dir1 stmts1 =>
    cases g2 with
    | mk dir2 stmts2 =>
      cases hd
      cases hs
      rfl

/-- Witness for C10 at a concrete graph. -/
theorem populate_deterministic_witness :
    populate { dir := some Direction.LR,
               statements := [Statement.Checkout { branch := "main" }] } =
      populate { dir := some Direction.LR,
                 statements := [Statement.Checkout { branch := "main" }] } :=
  populate_deterministic
    { dir := some Direction.LR,
      statements := [Statement.Checkout { branch := "main" }] }
    { dir := some Direction.LR,
      statements := [Statement.Checkout { branch := "main" }] } rfl rfl

end GitGraphParser
